import Mathlib

/-!
Shallow embedding of the Giftree Cloudflare worker backend (`src/worker.js`).

The worker keeps all shared state in three key-value namespaces
(`env.USERS`, `env.SESSIONS`, `env.LANDS`); each is modelled as an
association list keyed by string.  Handlers become pure functions from a
`Store` (plus the request data and the values the runtime supplies:
timestamps, generated ids, results of external HTTP calls) to a response
together with the updated `Store`.  JavaScript truthiness of the strings
involved is modelled by comparison with the empty string, and a JSON
`null`/absent image field by `Option`.
-/

namespace Giftree

/-- Association-list model of one Cloudflare KV namespace. -/
abbrev KV (α : Type) := List (String × α)

/-- KV read (`env.NS.get(key)`): first binding wins. -/
def KV.get {α : Type} (m : KV α) (k : String) : Option α :=
  m.lookup k

/-- KV write (`env.NS.put(key, value)`): prepend, so the new binding shadows
any old one. -/
def KV.put {α : Type} (m : KV α) (k : String) (v : α) : KV α :=
  (k, v) :: m

/-- KV delete (`env.NS.delete(key)`): drop every binding of the key. -/
def KV.del {α : Type} (m : KV α) (k : String) : KV α :=
  m.filter (fun p => p.1 != k)

theorem KV.get_put_same {α : Type} (m : KV α) (k : String) (v : α) :
    (m.put k v).get k = some v := by
  simp [KV.get, KV.put, List.lookup]

theorem KV.get_put_other {α : Type} (m : KV α) (k k' : String) (v : α)
    (h : k' ≠ k) : (m.put k v).get k' = m.get k' := by
  have hb : (k' == k) = false := beq_eq_false_iff_ne.mpr h
  simp [KV.get, KV.put, List.lookup, hb]

theorem KV.get_del_same {α : Type} (m : KV α) (k : String) :
    (m.del k).get k = none := by
  induction m with
  | nil => rfl
  | cons p t ih =>
    by_cases h : p.1 = k
    · have hb : (p.1 != k) = false := by simp [h]
      simpa [KV.del, KV.get, List.filter_cons, hb] using ih
    · have hb : (p.1 != k) = true := by simp [h]
      have hk : (k == p.1) = false := beq_eq_false_iff_ne.mpr (fun e => h e.symm)
      simp only [KV.del, List.filter_cons, hb, if_true]
      simp only [KV.get, List.lookup, hk]
      exact ih

theorem KV.get_del_other {α : Type} (m : KV α) (k k' : String)
    (h : k' ≠ k) : (m.del k).get k' = m.get k' := by
  induction m with
  | nil => rfl
  | cons p t ih =>
    by_cases hp : p.1 = k
    · have hb : (p.1 != k) = false := by simp [hp]
      have hk : (k' == p.1) = false := by
        apply beq_eq_false_iff_ne.mpr
        rw [hp]; exact h
      simp only [KV.del, List.filter_cons, hb, if_false]
      simp only [KV.get, List.lookup, hk] at ih ⊢
      simpa [KV.del, KV.get] using ih
    · have hb : (p.1 != k) = true := by simp [hp]
      simp only [KV.del, List.filter_cons, hb, if_true]
      simp only [KV.get, List.lookup] at ih ⊢
      cases hk : (k' == p.1) with
      | true => simp
      | false => simpa [KV.del, KV.get] using ih

/-- Per-user display settings (`user.settings`). -/
structure Settings where
  skyColor : String
  landColor : String
deriving DecidableEq, Repr

/-- Stored user record (`env.USERS`, key `user:` ++ id). -/
structure User where
  id : String
  email : String
  name : String
  nickname : String
  profileImage : String
  settings : Settings
  createdAt : String
deriving DecidableEq, Repr

/-- Stored session record (`env.SESSIONS`, keyed by the raw session id). -/
structure Session where
  userId : String
  createdAt : String
deriving DecidableEq, Repr

/-- A value in the `env.SESSIONS` namespace: either a session record (stored
as JSON, read back with type json) or a plain string such as the literal
`pending` written under `oauth_state:` ++ state keys. -/
inductive SessVal where
  | sess (s : Session)
  | raw (v : String)
deriving DecidableEq, Repr

/-- One guestbook entry (`tree`) inside a land.  `imageUrl` is `null` in the
source when no image was supplied, hence `Option`. -/
structure Tree where
  id : String
  type : String
  planterId : String
  planterName : String
  message : String
  imageUrl : Option String
  plantedAt : String
deriving DecidableEq, Repr

/-- Stored land record (`env.LANDS`, key `land:` ++ ownerId). -/
structure Land where
  ownerId : String
  trees : List Tree
  createdAt : String
deriving DecidableEq, Repr

/-- The three KV namespaces bound to the worker. -/
structure Store where
  users : KV User
  sessions : KV SessVal
  lands : KV Land
deriving DecidableEq, Repr

/-- JavaScript `a || b` on strings: the empty string is falsy. -/
def jsOr (a b : String) : String :=
  if a = "" then b else a

/-- Truthiness of a `SESSIONS` value read back as text: only the empty plain
string is falsy (a stored session serializes to a non-empty JSON string). -/
def SessVal.falsy : SessVal → Bool
  | .raw v => v == ""
  | .sess _ => false

/-- getCurrentUser (worker.js lines 57-68): resolve the `session` cookie to a
session record, then load the user it references.  A missing or empty
cookie, an unknown session id, a non-session value under that key, or a
dangling `userId` all yield `none`. -/
def getCurrentUser (st : Store) (cookieSession : Option String) : Option User :=
  match cookieSession with
  | none => none
  | some sid =>
    if sid = "" then none
    else
      match st.sessions.get sid with
      | some (.sess s) => st.users.get ("user:" ++ s.userId)
      | _ => none

/-- Publicly visible projection of a tree: id, type, planterName, plantedAt
(worker.js lines 324-330). -/
structure PublicTree where
  id : String
  type : String
  planterName : String
  plantedAt : String
deriving DecidableEq, Repr

/-- projectTree: the non-owner projection applied to one tree. -/
def projectTree (t : Tree) : PublicTree :=
  ⟨t.id, t.type, t.planterName, t.plantedAt⟩

/-- A tree as it appears in the land view: verbatim for the owner, projected
for everyone else. -/
inductive TreeView where
  | full (t : Tree)
  | pub (p : PublicTree)
deriving DecidableEq, Repr

/-- Owner block of the land view (worker.js lines 335-340): id,
nickname-or-name, profileImage, settings; no email field exists. -/
structure OwnerView where
  id : String
  nickname : String
  profileImage : String
  settings : Settings
deriving DecidableEq, Repr

/-- mkOwnerView: the owner block built from the stored user record. -/
def mkOwnerView (u : User) : OwnerView :=
  ⟨u.id, jsOr u.nickname u.name, u.profileImage, u.settings⟩

/-- Response of GET /api/land/id. -/
inductive LandGetResp where
  | err (status : Nat) (message : String)
  | ok (owner : OwnerView) (trees : List TreeView) (isOwner : Bool)
deriving DecidableEq, Repr

/-- getOrCreateLand (worker.js lines 304-313): fetch the land; if absent,
build an empty one stamped with the current time, persist it, return it. -/
def getOrCreateLand (st : Store) (landId now : String) : Land × Store :=
  match st.lands.get ("land:" ++ landId) with
  | some l => (l, st)
  | none =>
    let l : Land := ⟨landId, [], now⟩
    (l, { st with lands := st.lands.put ("land:" ++ landId) l })

/-- isOwnerReq: whether the request's resolved user owns the given land
(worker.js lines 316-317). -/
def isOwnerReq (st : Store) (cookieSession : Option String) (landId : String) : Bool :=
  match getCurrentUser st cookieSession with
  | some u => u.id == landId
  | none => false

/-- landGet (worker.js lines 294-344), handler of GET /api/land/id:
404 when the owner user record is absent; otherwise get-or-create the land,
resolve the requester, and serve the view with trees verbatim for the owner
and projected for anyone else. -/
def landGet (st : Store) (landId : String) (cookieSession : Option String)
    (now : String) : LandGetResp × Store :=
  match st.users.get ("user:" ++ landId) with
  | none => (.err 404 "Land not found", st)
  | some owner =>
    let p := getOrCreateLand st landId now
    let io := isOwnerReq p.2 cookieSession landId
    let trees := p.1.trees.map
      (fun t => if io then TreeView.full t else TreeView.pub (projectTree t))
    (.ok (mkOwnerView owner) trees io, p.2)

/-- Parsed body of POST /api/land/id/plant.  Absent JSON fields behave like
the empty string under the truthiness tests the handler performs, so each
field is a plain string with the empty string standing for absent or empty. -/
structure PlantReq where
  message : String
  imageData : String
  treeType : String
deriving DecidableEq, Repr

/-- Response of POST /api/land/id/plant: an error, or success carrying the
new tree's id (the handler returns success plus tree id only). -/
inductive PlantResp where
  | err (status : Nat) (message : String)
  | ok (treeId : String)
deriving DecidableEq, Repr

/-- validTreeTypes (worker.js line 376). -/
def validTreeTypes : List String :=
  ["cherry", "pine", "maple", "christmas"]

/-- plant (worker.js lines 347-402), handler of POST /api/land/id/plant:
401 without a resolvable user, 400 on self-plant, 404 when the land is
absent, 400 when message and imageData are both empty, 400 on a non-empty
treeType outside the enum, 400 on an oversized image; otherwise build the
tree (type defaulting to pine when treeType is empty) and append it to the
land's tree list, persisting the whole land back. -/
def plant (st : Store) (landId : String) (cookieSession : Option String)
    (body : PlantReq) (newTreeId now : String) : PlantResp × Store :=
  match getCurrentUser st cookieSession with
  | none => (.err 401 "Login required", st)
  | some currentUser =>
    if currentUser.id = landId then
      (.err 400 "Cannot plant on your own land", st)
    else
      match st.lands.get ("land:" ++ landId) with
      | none => (.err 404 "Land not found", st)
      | some land =>
        if body.message = "" ∧ body.imageData = "" then
          (.err 400 "Message or image required", st)
        else if body.treeType ≠ "" ∧ body.treeType ∉ validTreeTypes then
          (.err 400 "Invalid tree type", st)
        else if body.imageData ≠ "" ∧ body.imageData.length > 667 * 1024 then
          (.err 400 "Image too large (max 500KB)", st)
        else
          let tree : Tree :=
            { id := newTreeId
              type := if body.treeType = "" then "pine" else body.treeType
              planterId := currentUser.id
              planterName := jsOr currentUser.nickname currentUser.name
              message := body.message
              imageUrl := if body.imageData = "" then none else some body.imageData
              plantedAt := now }
          let land' : Land := { land with trees := land.trees ++ [tree] }
          (.ok newTreeId,
           { st with lands := st.lands.put ("land:" ++ landId) land' })

/-- Response of GET /api/auth/me: the stored user record verbatim, or the
explicit user-null payload. -/
inductive MeResp where
  | user (u : User)
  | noUser
deriving DecidableEq, Repr

/-- authMe (worker.js lines 268-274), handler of GET /api/auth/me: returns
the resolved user record whole, with no projection applied. -/
def authMe (st : Store) (cookieSession : Option String) : MeResp :=
  match getCurrentUser st cookieSession with
  | none => .noUser
  | some u => .user u

/-- User-info payload returned by the external identity provider
(worker.js lines 202-206); passed in as a parameter since the network call
is outside the model. -/
structure GoogleUser where
  id : String
  email : String
  name : String
  picture : String
deriving DecidableEq, Repr

/-- Outcome of GET /api/auth/callback: a redirect to the front page carrying
an error query parameter, or a redirect to the user's land carrying the
fresh session cookie. -/
inductive CallbackResp where
  | redirectError (errParam : String)
  | redirectLand (userId : String) (sessionCookie : String)
deriving DecidableEq, Repr

/-- authCallback (worker.js lines 161-265), handler of GET /api/auth/callback.
`code`, `state` and `error` are the query parameters read as strings with
the empty string for absent (both absent and empty are falsy in the
source).  The two external HTTP calls are parameters: `tokenError` is the
truthiness of `tokens.error` from the token exchange, and `googleUser` the
decoded user-info payload; `sessionId` and `now` stand for the generated
session id and the timestamps.  Flow: reject on a provider error or missing
code/state; reject when no truthy value sits under the `oauth_state:` key;
delete the consumed state; reject on token-exchange failure; upsert the
user (creating user and empty land on first login, else refreshing the
profile image when it was the provider default or empty); store a session
and redirect to the user's land. -/
def authCallback (st : Store) (code state error : String)
    (tokenError : Bool) (googleUser : GoogleUser) (sessionId now : String) :
    CallbackResp × Store :=
  if error ≠ "" then (.redirectError "auth_denied", st)
  else if code = "" ∨ state = "" then (.redirectError "invalid_request", st)
  else
    match st.sessions.get ("oauth_state:" ++ state) with
    | none => (.redirectError "invalid_state", st)
    | some sv =>
      if sv.falsy then (.redirectError "invalid_state", st)
      else
        let st1 : Store :=
          { st with sessions := st.sessions.del ("oauth_state:" ++ state) }
        if tokenError then (.redirectError "token_error", st1)
        else
          let userId := googleUser.id
          let q : User × Store :=
            match st1.users.get ("user:" ++ userId) with
            | none =>
              (⟨userId, googleUser.email, googleUser.name, googleUser.name,
                 googleUser.picture, ⟨"#87CEEB", "#8B4513"⟩, now⟩,
               { st1 with lands := st1.lands.put ("land:" ++ userId) ⟨userId, [], now⟩ })
            | some u =>
              (if u.profileImage = googleUser.picture ∨ u.profileImage = "" then
                 { u with profileImage := googleUser.picture }
               else u,
               st1)
          let st2 : Store := { q.2 with users := q.2.users.put ("user:" ++ userId) q.1 }
          let st3 : Store :=
            { st2 with sessions := st2.sessions.put sessionId (.sess ⟨userId, now⟩) }
          (.redirectLand userId sessionId, st3)

/-- Generic API response: a status and the error message carried in the JSON
error body. -/
structure ApiResponse where
  status : Nat
  body : String
deriving DecidableEq, Repr

/-- handleApi (worker.js lines 138 and 446-449): the try/catch wrapping every
API handler.  A handler that completes yields its own response; a thrown
exception (modelled as `Except.error` carrying `error.message`) is caught
and answered with status 500 and the message built by prepending the fixed
prefix to the exception's message. -/
def handleApi (result : Except String ApiResponse) : ApiResponse :=
  match result with
  | .ok r => r
  | .error e => ⟨500, "Internal server error: " ++ e⟩

/-! Helper lemmas about the handlers. -/

/-- Reading the current user ignores the lands namespace. -/
theorem getCurrentUser_lands_irrel (st : Store) (l : KV Land) (c : Option String) :
    getCurrentUser { st with lands := l } c = getCurrentUser st c := rfl

/-- The ownership test ignores the lands namespace. -/
theorem isOwnerReq_lands_irrel (st : Store) (l : KV Land) (c : Option String)
    (landId : String) :
    isOwnerReq { st with lands := l } c landId = isOwnerReq st c landId := rfl

/-- getOrCreateLand only ever touches the lands namespace. -/
theorem getOrCreateLand_users (st : Store) (landId now : String) :
    (getOrCreateLand st landId now).2.users = st.users := by
  unfold getOrCreateLand
  cases st.lands.get ("land:" ++ landId) <;> rfl

theorem getOrCreateLand_sessions (st : Store) (landId now : String) :
    (getOrCreateLand st landId now).2.sessions = st.sessions := by
  unfold getOrCreateLand
  cases st.lands.get ("land:" ++ landId) <;> rfl

/-- After getOrCreateLand, the land it returned is what the store holds. -/
theorem getOrCreateLand_get (st : Store) (landId now : String) :
    (getOrCreateLand st landId now).2.lands.get ("land:" ++ landId) =
      some (getOrCreateLand st landId now).1 := by
  unfold getOrCreateLand
  cases h : st.lands.get ("land:" ++ landId) with
  | some l => simpa using h
  | none => simp [KV.get_put_same]

/-- A second getOrCreateLand with no intervening write returns the same land
and leaves the store alone. -/
theorem getOrCreateLand_idem_aux (st : Store) (landId t1 t2 : String) :
    getOrCreateLand (getOrCreateLand st landId t1).2 landId t2 =
      getOrCreateLand st landId t1 := by
  cases h : st.lands.get ("land:" ++ landId) with
  | some l => simp [getOrCreateLand, h]
  | none => simp [getOrCreateLand, h, KV.get_put_same]

/-- A second landGet with no intervening mutation reproduces the first
response and leaves the store alone. -/
theorem landGet_idem_aux (st : Store) (landId : String) (c : Option String)
    (t1 t2 : String) :
    landGet (landGet st landId c t1).2 landId c t2 = landGet st landId c t1 := by
  cases h : st.users.get ("user:" ++ landId) with
  | none => simp [landGet, h]
  | some owner =>
    have hu := getOrCreateLand_users st landId t1
    have hs := getOrCreateLand_sessions st landId t1
    have hi := getOrCreateLand_idem_aux st landId t1 t2
    have hio : isOwnerReq (getOrCreateLand (getOrCreateLand st landId t1).2 landId t2).2
        c landId = isOwnerReq (getOrCreateLand st landId t1).2 c landId := by
      rw [hi]
    simp only [landGet, hu, h, hi, hio]

/-- When the land already exists, landGet writes nothing. -/
theorem landGet_preserves (st : Store) (landId : String) (c : Option String)
    (now : String) (h : (st.lands.get ("land:" ++ landId)).isSome = true) :
    (landGet st landId c now).2 = st := by
  cases hu : st.users.get ("user:" ++ landId) with
  | none => simp [landGet, hu]
  | some owner =>
    cases hl : st.lands.get ("land:" ++ landId) with
    | none => rw [hl] at h; simp at h
    | some l => simp [landGet, hu, getOrCreateLand, hl]

/-! Concrete fixtures used by the witnesses. -/

def aliceUser : User :=
  ⟨"alice", "alice@example.com", "Alice", "Alice", "", ⟨"#87CEEB", "#8B4513"⟩, "t0"⟩

def bobUser : User :=
  ⟨"bob", "bob@example.com", "Bob", "Bobby", "", ⟨"#87CEEB", "#8B4513"⟩, "t0"⟩

def baseStore : Store :=
  ⟨[("user:alice", aliceUser), ("user:bob", bobUser)],
   [("sidA", .sess ⟨"alice", "t0"⟩), ("sidB", .sess ⟨"bob", "t0"⟩),
    ("oauth_state:s1", .raw "pending")],
   [("land:alice", ⟨"alice", [], "t0"⟩)]⟩

def tree0 : Tree :=
  ⟨"tree_0", "cherry", "carol", "Carol", "welcome", none, "t0"⟩

def plantStore : Store :=
  ⟨[("user:alice", aliceUser), ("user:bob", bobUser)],
   [("sidB", .sess ⟨"bob", "t0"⟩)],
   [("land:alice", ⟨"alice", [tree0], "t0"⟩)]⟩

/-! Claim theorems. -/

/-- C2: an authenticated plant request whose requester id equals the target
land id returns the 400 self-plant error and hands back the store untouched,
so no write happens for that land (or any other key). -/
theorem self_plant_rejected (st : Store) (landId : String)
    (c : Option String) (body : PlantReq) (tid now : String) (u : User)
    (hcu : getCurrentUser st c = some u) (hid : u.id = landId) :
    plant st landId c body tid now =
      (.err 400 "Cannot plant on your own land", st) := by
  simp [plant, hcu, hid]

theorem self_plant_rejected_witness :
    getCurrentUser baseStore (some "sidA") = some aliceUser ∧
    aliceUser.id = "alice" ∧
    plant baseStore "alice" (some "sidA") ⟨"hi", "", ""⟩ "tid1" "t1" =
      (.err 400 "Cannot plant on your own land", baseStore) :=
  ⟨by decide, by decide,
   self_plant_rejected baseStore "alice" (some "sidA") ⟨"hi", "", ""⟩ "tid1" "t1"
     aliceUser (by decide) (by decide)⟩

/-- C7: viewing a land is idempotent — a second getOrCreateLand, and a second
full GET /land/id evaluation, with no intervening plant return the very same
land record and response and leave the store exactly as the first call left
it. -/
theorem land_view_idempotent (st : Store) (landId : String)
    (c : Option String) (t1 t2 : String) :
    getOrCreateLand (getOrCreateLand st landId t1).2 landId t2 =
      getOrCreateLand st landId t1 ∧
    landGet (landGet st landId c t1).2 landId c t2 = landGet st landId c t1 :=
  ⟨getOrCreateLand_idem_aux st landId t1 t2, landGet_idem_aux st landId c t1 t2⟩

/-- C4: GET /land/id answers 404 and writes nothing when no user record
exists for the id; when the owner exists but the land record is absent it
persists a fresh empty land stamped with the current time and serves its
(empty) view. -/
theorem land_get_or_create_semantics (st : Store) (landId : String)
    (c : Option String) (now : String) :
    (st.users.get ("user:" ++ landId) = none →
      landGet st landId c now = (.err 404 "Land not found", st)) ∧
    (∀ owner : User, st.users.get ("user:" ++ landId) = some owner →
      st.lands.get ("land:" ++ landId) = none →
      landGet st landId c now =
        (.ok (mkOwnerView owner) [] (isOwnerReq st c landId),
         { st with lands := st.lands.put ("land:" ++ landId) ⟨landId, [], now⟩ })) := by
  constructor
  · intro h
    simp [landGet, h]
  · intro owner ho hl
    simp [landGet, ho, getOrCreateLand, hl, isOwnerReq_lands_irrel]

theorem land_get_or_create_semantics_witness :
    (baseStore.users.get ("user:" ++ "ghost") = none ∧
      landGet baseStore "ghost" none "t1" = (.err 404 "Land not found", baseStore)) ∧
    (baseStore.users.get ("user:" ++ "bob") = some bobUser ∧
      baseStore.lands.get ("land:" ++ "bob") = none ∧
      landGet baseStore "bob" none "t1" =
        (.ok (mkOwnerView bobUser) [] (isOwnerReq baseStore none "bob"),
         { baseStore with
            lands := baseStore.lands.put ("land:" ++ "bob") ⟨"bob", [], "t1"⟩ })) :=
  ⟨⟨by decide, (land_get_or_create_semantics baseStore "ghost" none "t1").1 (by decide)⟩,
   ⟨by decide, by decide,
    (land_get_or_create_semantics baseStore "bob" none "t1").2 bobUser
      (by decide) (by decide)⟩⟩

/-- C8: a successful plant appends exactly one tree at the end of the target
land's list, keeping every previously stored tree unchanged and in place,
touches no other land key, and the read path (landGet on an existing land)
never writes at all — so sequential planting yields insertion order and
nothing ever edits, removes or reorders existing trees. -/
theorem plant_appends_one (st : Store) (landId : String) (c : Option String)
    (body : PlantReq) (tid now : String) (land : Land) (r : String) (st' : Store)
    (hl : st.lands.get ("land:" ++ landId) = some land)
    (hp : plant st landId c body tid now = (.ok r, st')) :
    (∃ t : Tree, st'.lands.get ("land:" ++ landId) =
        some ⟨land.ownerId, land.trees ++ [t], land.createdAt⟩) ∧
    (∀ k, k ≠ "land:" ++ landId → st'.lands.get k = st.lands.get k) ∧
    (∀ (st2 : Store) (c2 : Option String) (n2 : String),
      (st2.lands.get ("land:" ++ landId)).isSome = true →
      (landGet st2 landId c2 n2).2 = st2) := by
  cases hcu : getCurrentUser st c with
  | none => simp [plant, hcu] at hp
  | some u =>
    by_cases hself : u.id = landId
    · simp [plant, hcu, hself] at hp
    · simp only [plant, hcu, hl, if_neg hself] at hp
      split_ifs at hp with h1 h2 h3 <;> try simp at hp
      all_goals
        obtain ⟨hr, hst⟩ := hp
        subst hst
        refine ⟨⟨_, KV.get_put_same st.lands ("land:" ++ landId) _⟩, ?_, ?_⟩
        · intro k hk
          exact KV.get_put_other st.lands ("land:" ++ landId) k _ hk
        · intro st2 c2 n2 hq
          exact landGet_preserves st2 landId c2 n2 hq

def plantBody : PlantReq := ⟨"hi", "", ""⟩

def plantStoreAfter : Store :=
  (plant plantStore "alice" (some "sidB") plantBody "tid1" "t1").2

theorem plant_appends_one_witness :
    plantStore.lands.get ("land:" ++ "alice") = some ⟨"alice", [tree0], "t0"⟩ ∧
    ((∃ t : Tree, plantStoreAfter.lands.get ("land:" ++ "alice") =
        some ⟨"alice", [tree0] ++ [t], "t0"⟩) ∧
     (∀ k, k ≠ "land:" ++ "alice" →
        plantStoreAfter.lands.get k = plantStore.lands.get k) ∧
     (∀ (st2 : Store) (c2 : Option String) (n2 : String),
        (st2.lands.get ("land:" ++ "alice")).isSome = true →
        (landGet st2 "alice" c2 n2).2 = st2)) :=
  ⟨by decide,
   plant_appends_one plantStore "alice" (some "sidB") plantBody "tid1" "t1"
     ⟨"alice", [tree0], "t0"⟩ "tid1" plantStoreAfter (by decide) rfl⟩

/-- C10: when the session cookie resolves to a stored user record,
GET /auth/me returns that record whole — every field, the email included,
with no projection — whereas the land view's owner block is built without
the email field, so it is independent of the stored email. -/
theorem auth_me_verbatim (st : Store) (sid : String) (s : Session) (u : User)
    (hs : sid ≠ "")
    (hsess : st.sessions.get sid = some (.sess s))
    (hu : st.users.get ("user:" ++ s.userId) = some u) :
    authMe st (some sid) = .user u ∧
    (∀ e : String, mkOwnerView { u with email := e } = mkOwnerView u) := by
  refine ⟨?_, fun e => rfl⟩
  simp [authMe, getCurrentUser, hs, hsess, hu]

theorem auth_me_verbatim_witness :
    ("sidA" ≠ "" ∧
      baseStore.sessions.get "sidA" = some (.sess ⟨"alice", "t0"⟩) ∧
      baseStore.users.get ("user:" ++ "alice") = some aliceUser) ∧
    (authMe baseStore (some "sidA") = .user aliceUser ∧
     (∀ e : String, mkOwnerView { aliceUser with email := e } = mkOwnerView aliceUser)) :=
  ⟨⟨by decide, by decide, by decide⟩,
   auth_me_verbatim baseStore "sidA" ⟨"alice", "t0"⟩ aliceUser
     (by decide) (by decide) (by decide)⟩

/-- When the requester does not own the land, the served trees are exactly
the four-field projections. -/
theorem landGet_nonowner_aux (st : Store) (landId : String) (c : Option String)
    (now : String) (owner : User) (land : Land)
    (ho : st.users.get ("user:" ++ landId) = some owner)
    (hl : st.lands.get ("land:" ++ landId) = some land)
    (hno : ∀ u : User, getCurrentUser st c = some u → u.id ≠ landId) :
    (landGet st landId c now).1 =
      .ok (mkOwnerView owner)
        (land.trees.map (fun t => TreeView.pub (projectTree t))) false := by
  have hio : isOwnerReq st c landId = false := by
    unfold isOwnerReq
    cases hcu : getCurrentUser st c with
    | none => rfl
    | some u =>
      simp only [beq_eq_false_iff_ne, ne_eq]
      exact hno u hcu
  simp [landGet, ho, getOrCreateLand, hl, hio]

/-- C1: for every requester who is not the land's owner (anonymous included),
each tree in the land view is exactly the projection to id, type,
planterName and plantedAt, and the whole non-owner response is a function
of those projections alone — two stored lands whose trees agree on the four
public fields produce identical responses however their message and
imageUrl contents differ. -/
theorem nonowner_view_projects (st : Store) (landId : String)
    (c : Option String) (now : String) (owner : User) (land : Land)
    (ho : st.users.get ("user:" ++ landId) = some owner)
    (hl : st.lands.get ("land:" ++ landId) = some land)
    (hno : ∀ u : User, getCurrentUser st c = some u → u.id ≠ landId) :
    (landGet st landId c now).1 =
      .ok (mkOwnerView owner)
        (land.trees.map (fun t => TreeView.pub (projectTree t))) false ∧
    (∀ (st2 : Store) (c2 : Option String) (now2 : String) (owner2 : User)
        (land2 : Land),
      st2.users.get ("user:" ++ landId) = some owner2 →
      st2.lands.get ("land:" ++ landId) = some land2 →
      (∀ u : User, getCurrentUser st2 c2 = some u → u.id ≠ landId) →
      mkOwnerView owner2 = mkOwnerView owner →
      land2.trees.map projectTree = land.trees.map projectTree →
      (landGet st2 landId c2 now2).1 = (landGet st landId c now).1) := by
  have h1 := landGet_nonowner_aux st landId c now owner land ho hl hno
  refine ⟨h1, ?_⟩
  intro st2 c2 now2 owner2 land2 ho2 hl2 hno2 hov hpt
  have h2 := landGet_nonowner_aux st2 landId c2 now2 owner2 land2 ho2 hl2 hno2
  have hmaps : land2.trees.map (fun t => TreeView.pub (projectTree t)) =
      land.trees.map (fun t => TreeView.pub (projectTree t)) := by
    have e1 : land2.trees.map (fun t => TreeView.pub (projectTree t)) =
        (land2.trees.map projectTree).map TreeView.pub := by
      rw [List.map_map]; rfl
    have e2 : land.trees.map (fun t => TreeView.pub (projectTree t)) =
        (land.trees.map projectTree).map TreeView.pub := by
      rw [List.map_map]; rfl
    rw [e1, e2, hpt]
  rw [h1, h2, hov, hmaps]

def secretTree : Tree :=
  ⟨"tree_1", "maple", "bob", "Bobby", "secret", some "IMG", "t1"⟩

def blankTree : Tree :=
  ⟨"tree_1", "maple", "bob", "Bobby", "", none, "t1"⟩

def secretStore : Store :=
  ⟨[("user:alice", aliceUser)], [], [("land:alice", ⟨"alice", [secretTree], "t0"⟩)]⟩

def blankStore : Store :=
  ⟨[("user:alice", aliceUser)], [], [("land:alice", ⟨"alice", [blankTree], "t0"⟩)]⟩

theorem nonowner_view_projects_witness :
    (landGet secretStore "alice" none "t2").1 =
      .ok (mkOwnerView aliceUser)
        ([secretTree].map (fun t => TreeView.pub (projectTree t))) false ∧
    (landGet blankStore "alice" none "t2").1 =
      (landGet secretStore "alice" none "t2").1 :=
  have hno : ∀ u : User, getCurrentUser secretStore none = some u → u.id ≠ "alice" :=
    fun u h => by simp [getCurrentUser] at h
  have hno2 : ∀ u : User, getCurrentUser blankStore none = some u → u.id ≠ "alice" :=
    fun u h => by simp [getCurrentUser] at h
  have hmain := nonowner_view_projects secretStore "alice" none "t2" aliceUser
    ⟨"alice", [secretTree], "t0"⟩ (by decide) (by decide) hno
  ⟨hmain.1,
   hmain.2 blankStore none "t2" aliceUser ⟨"alice", [blankTree], "t0"⟩
     (by decide) (by decide) hno2 rfl (by decide)⟩

/-- C3: a callback carrying code and state is rejected with the
invalid-state error redirect whenever nothing truthy sits under the
`oauth_state:` key at verification time (never-issued, expired), and a
successful consumption deletes the key, so a later callback presenting the
same state token is rejected the same way whatever came of the first
token exchange. -/
theorem csrf_state_single_use (st : Store) (code state : String) (te : Bool)
    (gu : GoogleUser) (sid now code2 : String) (te2 : Bool) (gu2 : GoogleUser)
    (sid2 now2 : String)
    (hc : code ≠ "") (hstt : state ≠ "")
    (hsid : sid ≠ "oauth_state:" ++ state) (hc2 : code2 ≠ "") :
    (st.sessions.get ("oauth_state:" ++ state) = none →
      (authCallback st code state "" te gu sid now).1 =
        .redirectError "invalid_state") ∧
    (∀ sv : SessVal, st.sessions.get ("oauth_state:" ++ state) = some sv →
      sv.falsy = false →
      (authCallback (authCallback st code state "" te gu sid now).2
          code2 state "" te2 gu2 sid2 now2).1 =
        .redirectError "invalid_state") := by
  constructor
  · intro h
    simp [authCallback, hc, hstt, h]
  · intro sv hsv hf
    have hne : ("oauth_state:" ++ state) ≠ sid := fun e => hsid e.symm
    have hp1 : ∀ (m : KV SessVal) (v : SessVal),
        (m.put sid v).get ("oauth_state:" ++ state) =
          m.get ("oauth_state:" ++ state) :=
      fun m v => KV.get_put_other m sid ("oauth_state:" ++ state) v hne
    have hdel : (authCallback st code state "" te gu sid now).2.sessions.get
        ("oauth_state:" ++ state) = none := by
      cases te with
      | true => simp [authCallback, hc, hstt, hsv, hf, KV.get_del_same]
      | false =>
        cases hq : st.users.get ("user:" ++ gu.id) with
        | none => simp [authCallback, hc, hstt, hsv, hf, hq, hp1, KV.get_del_same]
        | some u0 => simp [authCallback, hc, hstt, hsv, hf, hq, hp1, KV.get_del_same]
    revert hdel
    generalize (authCallback st code state "" te gu sid now).2 = stx
    intro hdel
    simp [authCallback, hc2, hstt, hdel]

def gUser : GoogleUser :=
  ⟨"bob", "bob@example.com", "Bob", "pic"⟩

theorem csrf_state_single_use_witness :
    (baseStore.sessions.get ("oauth_state:" ++ "s2") = none ∧
     (authCallback baseStore "c" "s2" "" false gUser "newsid" "t1").1 =
       .redirectError "invalid_state") ∧
    (baseStore.sessions.get ("oauth_state:" ++ "s1") = some (.raw "pending") ∧
     (SessVal.raw "pending").falsy = false ∧
     (authCallback (authCallback baseStore "c" "s1" "" false gUser "newsid" "t1").2
        "c" "s1" "" false gUser "newsid2" "t2").1 =
       .redirectError "invalid_state") :=
  ⟨⟨by decide,
    (csrf_state_single_use baseStore "c" "s2" false gUser "newsid" "t1" "c" false
      gUser "newsid2" "t2" (by decide) (by decide) (by decide) (by decide)).1
      (by decide)⟩,
   ⟨by decide, by decide,
    (csrf_state_single_use baseStore "c" "s1" false gUser "newsid" "t1" "c" false
      gUser "newsid2" "t2" (by decide) (by decide) (by decide) (by decide)).2
      (.raw "pending") (by decide) (by decide)⟩⟩

/-- C5 counterexample: a plant request whose treeType is the out-of-enum
value oak is answered with the 400 invalid-tree-type error and the store is
handed back untouched — no tree (pine or otherwise) is planted, against the
claim that an out-of-enum type is silently defaulted to pine. -/
theorem invalid_tree_type_rejected_cex :
    plant plantStore "alice" (some "sidB") ⟨"hi", "", "oak"⟩ "tid1" "t1" =
      (.err 400 "Invalid tree type", plantStore) ∧
    plantStore.lands.get ("land:" ++ "alice") = some ⟨"alice", [tree0], "t0"⟩ := by
  constructor
  · decide
  · decide

/-- C5 amended: a non-empty treeType outside the enum is rejected with the
400 invalid-tree-type error and no store write; only an absent or empty
treeType is defaulted — such a request plants a tree whose type is pine. -/
theorem tree_type_validation (st : Store) (landId : String) (c : Option String)
    (body : PlantReq) (tid now : String) (u : User) (land : Land)
    (hcu : getCurrentUser st c = some u) (hself : u.id ≠ landId)
    (hl : st.lands.get ("land:" ++ landId) = some land)
    (hne : ¬(body.message = "" ∧ body.imageData = "")) :
    (body.treeType ≠ "" → body.treeType ∉ validTreeTypes →
      plant st landId c body tid now = (.err 400 "Invalid tree type", st)) ∧
    (body.treeType = "" →
      body.imageData = "" ∨ body.imageData.length ≤ 667 * 1024 →
      plant st landId c body tid now =
        (.ok tid,
         { st with lands := st.lands.put ("land:" ++ landId)
                              ({ land with trees := land.trees ++
                                [⟨tid, "pine", u.id, jsOr u.nickname u.name,
                                  body.message,
                                  (if body.imageData = "" then none
                                   else some body.imageData),
                                  now⟩] }) })) := by
  constructor
  · intro ht hv
    simp [plant, hcu, hself, hl, hne, ht, hv]
  · intro ht hsize
    have hbig : ¬(body.imageData ≠ "" ∧ body.imageData.length > 667 * 1024) := by
      rcases hsize with h | h
      · intro hcon; exact hcon.1 h
      · intro hcon; omega
    simp [plant, hcu, hself, hl, hne, ht, hbig]

def pineTree : Tree :=
  ⟨"tid1", "pine", "bob", "Bobby", "hi", none, "t1"⟩

theorem tree_type_validation_witness :
    (getCurrentUser plantStore (some "sidB") = some bobUser ∧
      bobUser.id ≠ "alice" ∧
      plantStore.lands.get ("land:" ++ "alice") = some ⟨"alice", [tree0], "t0"⟩) ∧
    plant plantStore "alice" (some "sidB") ⟨"hi", "", "oak"⟩ "tid1" "t1" =
      (.err 400 "Invalid tree type", plantStore) ∧
    plant plantStore "alice" (some "sidB") ⟨"hi", "", ""⟩ "tid1" "t1" =
      (.ok "tid1",
       { plantStore with
          lands := plantStore.lands.put ("land:" ++ "alice")
            ⟨"alice", [tree0] ++ [pineTree], "t0"⟩ }) :=
  ⟨⟨by decide, by decide, by decide⟩,
   (tree_type_validation plantStore "alice" (some "sidB") ⟨"hi", "", "oak"⟩
       "tid1" "t1" bobUser ⟨"alice", [tree0], "t0"⟩ (by decide) (by decide)
       (by decide) (by decide)).1 (by decide) (by decide),
   (tree_type_validation plantStore "alice" (some "sidB") ⟨"hi", "", ""⟩
       "tid1" "t1" bobUser ⟨"alice", [tree0], "t0"⟩ (by decide) (by decide)
       (by decide) (by decide)).2 rfl (Or.inl rfl)⟩

/-- C6 counterexample: a plant request carrying a non-empty message and a
non-empty imageData together is accepted — the handler answers success and
stores a tree holding both the message and the image — against the claim
that supplying both is not accepted. -/
theorem both_fields_accepted_cex :
    (plant plantStore "alice" (some "sidB") ⟨"hi", "IMG", ""⟩ "tid1" "t1").1 =
      .ok "tid1" ∧
    (plant plantStore "alice" (some "sidB") ⟨"hi", "IMG", ""⟩ "tid1" "t1").2.lands.get
        ("land:" ++ "alice") =
      some ⟨"alice",
        [tree0, ⟨"tid1", "pine", "bob", "Bobby", "hi", some "IMG", "t1"⟩], "t0"⟩ := by
  constructor
  · decide
  · decide

/-- C6 amended: the handler requires at least one of message and imageData
to be non-empty — both empty is rejected with the 400 error and no store
write — but it does not require exactly one: both non-empty passes
validation and plants a tree carrying the message and the image together. -/
theorem message_image_requirement (st : Store) (landId : String)
    (c : Option String) (body : PlantReq) (tid now : String) (u : User)
    (land : Land)
    (hcu : getCurrentUser st c = some u) (hself : u.id ≠ landId)
    (hl : st.lands.get ("land:" ++ landId) = some land) :
    (body.message = "" → body.imageData = "" →
      plant st landId c body tid now =
        (.err 400 "Message or image required", st)) ∧
    (body.message ≠ "" → body.imageData ≠ "" →
      (body.treeType = "" ∨ body.treeType ∈ validTreeTypes) →
      body.imageData.length ≤ 667 * 1024 →
      plant st landId c body tid now =
        (.ok tid,
         { st with lands := st.lands.put ("land:" ++ landId)
                              ({ land with trees := land.trees ++
                                [⟨tid,
                                  (if body.treeType = "" then "pine"
                                   else body.treeType),
                                  u.id, jsOr u.nickname u.name, body.message,
                                  some body.imageData, now⟩] }) })) := by
  constructor
  · intro hm hi
    simp [plant, hcu, hself, hl, hm, hi]
  · intro hm hi htv hsize
    have hne : ¬(body.message = "" ∧ body.imageData = "") := fun hx => hm hx.1
    have htype : ¬(body.treeType ≠ "" ∧ body.treeType ∉ validTreeTypes) := by
      rcases htv with h | h
      · intro hcon; exact hcon.1 h
      · intro hcon; exact hcon.2 h
    have hbig : ¬(body.imageData ≠ "" ∧ body.imageData.length > 667 * 1024) := by
      intro hcon; omega
    simp [plant, hcu, hself, hl, hne, htype, hbig, hi, hsize]

def bothTree : Tree :=
  ⟨"tid1", "maple", "bob", "Bobby", "hi", some "IMG", "t1"⟩

theorem message_image_requirement_witness :
    (getCurrentUser plantStore (some "sidB") = some bobUser ∧
      bobUser.id ≠ "alice" ∧
      plantStore.lands.get ("land:" ++ "alice") = some ⟨"alice", [tree0], "t0"⟩) ∧
    plant plantStore "alice" (some "sidB") ⟨"", "", "maple"⟩ "tid1" "t1" =
      (.err 400 "Message or image required", plantStore) ∧
    plant plantStore "alice" (some "sidB") ⟨"hi", "IMG", "maple"⟩ "tid1" "t1" =
      (.ok "tid1",
       { plantStore with
          lands := plantStore.lands.put ("land:" ++ "alice")
            ⟨"alice", [tree0] ++ [bothTree], "t0"⟩ }) :=
  ⟨⟨by decide, by decide, by decide⟩,
   (message_image_requirement plantStore "alice" (some "sidB") ⟨"", "", "maple"⟩
       "tid1" "t1" bobUser ⟨"alice", [tree0], "t0"⟩ (by decide) (by decide)
       (by decide)).1 rfl rfl,
   (message_image_requirement plantStore "alice" (some "sidB") ⟨"hi", "IMG", "maple"⟩
       "tid1" "t1" bobUser ⟨"alice", [tree0], "t0"⟩ (by decide) (by decide)
       (by decide)).2 (by decide) (by decide) (Or.inr (by decide)) (by decide)⟩

/-- C9 counterexample: the catch-all answers a thrown exception with status
500 but the response body is built from the exception's own message — two
different exception details produce two different bodies, and the detail
string is embedded verbatim — against the claim that the message is generic
and detail-free. -/
theorem internal_error_leaks_detail_cex :
    handleApi (.error "kv timeout") =
      ⟨500, "Internal server error: " ++ "kv timeout"⟩ ∧
    (handleApi (.error "kv timeout")).body ≠ (handleApi (.error "boom")).body := by
  constructor
  · rfl
  · decide

/-- C9 amended: an unexpected exception is answered with status 500 and a
message that prepends the fixed prefix to the exception's own message, so
the underlying detail is included in the response rather than hidden; a
handler that completes normally passes its response through unchanged. -/
theorem internal_error_includes_detail (e : String) (r : ApiResponse) :
    handleApi (.error e) = ⟨500, "Internal server error: " ++ e⟩ ∧
    handleApi (.ok r) = r :=
  ⟨rfl, rfl⟩

end Giftree
